import Mathlib

/-!
Verification development for the `reader_cam` repository.

The repository is a browser application (`src/App.tsx`) that captures live
video (camera or screen share), polls a remote text-recognition service
(`src/services/geminiService.ts`) on a fixed interval, speaks newly
recognized text aloud, and can record the session.  A standalone script
(`src/unnamed/part_001`, documented in the README as `scripts/htmlToJson.ts`)
converts HTML to a JSON tree.

This file gives a shallow embedding of that code:

* JavaScript `String.prototype.trim` is modelled by `jsTrim` over the
  character list of a string.
* `identifyTextInImage` is modelled as a function of the configured API key
  and of the outcome of the single underlying network call; a JavaScript
  throwable is modelled by `Throwable`.
* The React component state of `App.tsx` is modelled by `SessionState`;
  `setXxx` calls become record updates, refs become ordinary fields, and the
  stream tracks are identified by numeric ids whose release is recorded in
  `stoppedTracks`.  The speech-synthesis engine is modelled by the
  `speechQueue` field (`window.speechSynthesis.cancel()` empties it,
  `speak` appends to it).
* The polling loop is modelled by a step function over events: a timer tick
  (`captureFrameAndProcess` entry) and the settlement of the outstanding
  recognition call with either a text or a throwable.
* The HTML-to-JSON script is modelled by `nodeToJson` and `htmlToJsonMain`;
  the behaviour of Node's callback-style `fs.readFile` when invoked without
  a callback (as the script does) is modelled by `fsReadFileNoCallback`.
-/

/-! ## JavaScript string trimming -/

/-- Whitespace characters removed by JavaScript `String.prototype.trim`
(the ASCII subset that can occur in the strings handled by this program). -/
def isJsWhitespace (c : Char) : Bool :=
  c = ' ' || c = '\t' || c = '\n' || c = '\r' || c = '\x0b' || c = '\x0c'

/-- Trim `isJsWhitespace` characters from both ends of a character list. -/
def jsTrimList (l : List Char) : List Char :=
  ((l.dropWhile isJsWhitespace).reverse.dropWhile isJsWhitespace).reverse

/-- Model of JavaScript `s.trim()`. -/
def jsTrim (s : String) : String :=
  String.mk (jsTrimList s.data)

theorem dropWhile_dropWhile_self (p : Char → Bool) (l : List Char) :
    (l.dropWhile p).dropWhile p = l.dropWhile p := by
  induction l with
  | nil => rfl
  | cons a t ih =>
    by_cases h : p a = true
    · simp [List.dropWhile_cons, h, ih]
    · simp only [eq_iff_iff, iff_true] at h
      simp [List.dropWhile_cons, h]

theorem dropWhile_eq_self_of_prefix (p : Char → Bool) {l₁ l₂ : List Char}
    (hpre : l₁ <+: l₂) (h : l₂.dropWhile p = l₂) : l₁.dropWhile p = l₁ := by
  cases l₁ with
  | nil => rfl
  | cons a t =>
    obtain ⟨r, hr⟩ := hpre
    subst hr
    by_cases hp : p a = true
    · exfalso
      rw [List.cons_append, List.dropWhile_cons, if_pos hp] at h
      have hle := (List.dropWhile_suffix (l := t ++ r) p).length_le
      rw [h] at hle
      simp at hle
    · simp only [Bool.not_eq_true] at hp
      simp [List.dropWhile_cons, hp]

theorem jsTrimList_idem (l : List Char) :
    jsTrimList (jsTrimList l) = jsTrimList l := by
  unfold jsTrimList
  set A := l.dropWhile isJsWhitespace with hA
  have hAdrop : A.dropWhile isJsWhitespace = A := dropWhile_dropWhile_self _ l
  set B := (A.reverse.dropWhile isJsWhitespace).reverse with hB
  have hBpre : B <+: A := by
    have hsuf : A.reverse.dropWhile isJsWhitespace <:+ A.reverse :=
      List.dropWhile_suffix _
    have h2 : (A.reverse.dropWhile isJsWhitespace).reverse <+: A.reverse.reverse :=
      List.reverse_prefix.mpr hsuf
    simpa [hB] using h2
  have hBdrop : B.dropWhile isJsWhitespace = B :=
    dropWhile_eq_self_of_prefix _ hBpre hAdrop
  have hBrev : B.reverse.dropWhile isJsWhitespace = B.reverse := by
    rw [hB, List.reverse_reverse]
    exact dropWhile_dropWhile_self _ _
  rw [hBdrop, hBrev, List.reverse_reverse]

theorem jsTrim_idem (s : String) : jsTrim (jsTrim s) = jsTrim s :=
  congrArg String.mk (jsTrimList_idem s.data)

/-! ## Text Recognition Client (`src/services/geminiService.ts`) -/

/-- A JavaScript throwable: either an `Error` with a message, or any
non-`Error` value. -/
inductive Throwable where
  | jsError (message : String)
  | nonError
deriving DecidableEq

/-- Message thrown by `identifyTextInImage` when the API key is missing. -/
def credMissingMsg : String :=
  "Gemini API Key is not configured. Please set the API_KEY environment variable."

/-- Message thrown when the underlying error message contains
"API key not valid". -/
def credInvalidMsg : String :=
  "Invalid Gemini API Key. Please check your API_KEY environment variable."

/-- Message thrown when the underlying throwable is not an `Error`. -/
def unknownCommMsg : String :=
  "An unknown error occurred while communicating with the Gemini API."

/-- The fixed base prompt of `identifyTextInImage`. -/
def basePrompt : String :=
  "Analyze this image and extract any visible text. Present the extracted text as a single string. If multiple distinct text blocks are found, concatenate them with a space in between. If no text is found, return an empty string."

/-- Prompt construction of `identifyTextInImage`: the custom prompt is
appended to the base prompt when present and not whitespace-only. -/
def buildPrompt (customPrompt : Option String) : String :=
  match customPrompt with
  | some c =>
      if jsTrim c ≠ "" then
        basePrompt ++ "\n\nAdditional user instructions: " ++ jsTrim c
      else basePrompt
  | none => basePrompt

/-- `true` when `pat` occurs as a contiguous sublist of `l`. -/
def listContains : List Char → List Char → Bool
  | [], pat => pat.isEmpty
  | a :: t, pat => pat.isPrefixOf (a :: t) || listContains t pat

/-- Model of JavaScript `haystack.includes(needle)`. -/
def hasSubstring (haystack needle : String) : Bool :=
  listContains haystack.data needle.data

/-- The try/catch body of `identifyTextInImage` applied to the outcome of
the `ai.models.generateContent` call: a successful response is trimmed and
returned; a thrown `Error` whose message contains "API key not valid" is
rethrown as the invalid-credential error; any other thrown `Error` is
rethrown wrapped; a non-`Error` throwable is rethrown as the unknown
error. -/
def geminiResult : Except Throwable String → Except Throwable String
  | Except.ok responseText => Except.ok (jsTrim responseText)
  | Except.error (Throwable.jsError m) =>
      if hasSubstring m "API key not valid" then
        Except.error (Throwable.jsError credInvalidMsg)
      else
        Except.error (Throwable.jsError ("Gemini API error: " ++ m))
  | Except.error Throwable.nonError =>
      Except.error (Throwable.jsError unknownCommMsg)

/-- Shallow embedding of `identifyTextInImage`.  `apiKey` models
`process.env.API_KEY` (`none` or the empty string are both falsy in the
source's `if (!apiKey)` check).  `api` models the single
`ai.models.generateContent` network call: given the prompt it either
returns the response text or throws.  The image payload does not influence
the control flow and is kept only for shape. -/
def identifyTextInImage (apiKey : Option String)
    (api : String → Except Throwable String)
    (base64ImageData : String) (customPrompt : Option String) :
    Except Throwable String :=
  if apiKey.getD "" = "" then
    Except.error (Throwable.jsError credMissingMsg)
  else
    geminiResult (api (buildPrompt customPrompt))

/-- The spec's error taxonomy for the recognition client. -/
inductive RecognitionErrorClass where
  | invalid_credentials
  | upstream_error
  | unknown
deriving DecidableEq

/-- Modelled from the spec: classification of a throwable escaping the
recognition client into the spec's taxonomy (`invalid_credentials` for the
missing/invalid-key messages, `upstream_error` for wrapped service
failures, `unknown` for the non-`Error` case).  `none` means the throwable
is unclassified. -/
def classifyThrown : Throwable → Option RecognitionErrorClass
  | Throwable.jsError m =>
      if m = credMissingMsg ∨ m = credInvalidMsg then
        some RecognitionErrorClass.invalid_credentials
      else if "Gemini API error: ".data.isPrefixOf m.data then
        some RecognitionErrorClass.upstream_error
      else if m = unknownCommMsg then
        some RecognitionErrorClass.unknown
      else none
  | Throwable.nonError => none

/-! ## Session state (`src/App.tsx` component state and refs) -/

/-- The `ActiveInputType` of `App.tsx`. -/
inductive ActiveInputType where
  | camera
  | screen
  | none
deriving DecidableEq

/-- A `SpeechSynthesisVoice`. -/
structure Voice where
  voiceURI : String
  name : String
  lang : String
deriving DecidableEq

/-- A `SpeechSynthesisUtterance` as configured by `speakText`: its text, its
rate, and the voice explicitly assigned to it (if any).  The JavaScript
number `rate` is modelled as a rational; the program only stores and copies
it. -/
structure Utterance where
  text : String
  rate : Rat
  voice : Option Voice
deriving DecidableEq

/-- The two `MediaRecorder` states this program distinguishes. -/
inductive MediaRecorderState where
  | inactive
  | recording
deriving DecidableEq

/-- The state of the `App` component: every `useState` value plus the
mutable refs and the borrowed browser resources.  Stream tracks are
numeric ids; a released (stopped) track id is recorded in `stoppedTracks`.
`videoElem` is `none` when `videoRef.current` is null, otherwise it holds
the element's `srcObject`.  `speechQueue` is the utterance queue of
`window.speechSynthesis`.  `inFlight` counts outstanding
`identifyTextInImage` calls. -/
@[ext]
structure SessionState where
  isCameraOn : Bool
  isScreenSharingOn : Bool
  activeInputType : ActiveInputType
  isProcessingAI : Bool
  currentSpokenText : String
  lastDetectedTextByAI : String
  error : Option String
  stream : Option (List Nat)
  stoppedTracks : List Nat
  videoElem : Option (Option (List Nat))
  intervalRunning : Bool
  speechQueue : List Utterance
  mediaRecorderRef : Option MediaRecorderState
  isRecording : Bool
  recordedChunks : List Nat
  videoRecordUrl : Option String
  recordingError : Option String
  customPromptText : String
  speechRate : Rat
  availableVoices : List Voice
  selectedVoiceURI : Option String
  inFlight : Nat
deriving DecidableEq

/-- Voice lookup of `speakText`: the selected voice URI resolved against the
available voices (`availableVoices.find(v => v.voiceURI === selectedVoiceURI)`). -/
def lookupSelectedVoice (s : SessionState) : Option Voice :=
  match s.selectedVoiceURI with
  | some uri => s.availableVoices.find? fun v => v.voiceURI == uri
  | none => none

/-- `speakText` of `App.tsx`: returns immediately when the text is
whitespace-only; otherwise cancels any ongoing speech
(`window.speechSynthesis.cancel()`) and speaks a new utterance configured
with the current rate and selected voice. -/
def speakText (s : SessionState) (text : String) : SessionState :=
  if jsTrim text = "" then s
  else
    { s with speechQueue := [{ text := text, rate := s.speechRate,
                               voice := lookupSelectedVoice s }] }

/-- The effect of `mediaRecorderRef.current.stop()` guarded by the
`state === "recording"` check in `handleStopRecordingInternal`. -/
def stoppedRecorderRef : Option MediaRecorderState → Option MediaRecorderState
  | some MediaRecorderState.recording => some MediaRecorderState.inactive
  | r => r

/-- `handleStopRecordingInternal` of `App.tsx`: stops the recorder when it
is recording and clears the `isRecording` flag. -/
def handleStopRecordingInternal (s : SessionState) : SessionState :=
  { s with mediaRecorderRef := stoppedRecorderRef s.mediaRecorderRef,
           isRecording := false }

/-- `stopAllStreamsAndProcessing` of `App.tsx`: stops every track of the
current stream, detaches the video sink, clears the stream and the input
flags, clears the polling interval, cancels speech, clears the spoken and
detected text and the in-flight flag, and stops any active recording.
(The source guards the video detach and the `clearInterval` behind
null-checks of the refs; the net state is the same.) -/
def stopAllStreamsAndProcessing (s : SessionState) : SessionState :=
  handleStopRecordingInternal
    { s with
      stoppedTracks := s.stoppedTracks ++ s.stream.getD [],
      videoElem := s.videoElem.map fun _ => Option.none,
      stream := Option.none,
      isCameraOn := false,
      isScreenSharingOn := false,
      activeInputType := ActiveInputType.none,
      intervalRunning := false,
      speechQueue := [],
      currentSpokenText := "",
      lastDetectedTextByAI := "",
      isProcessingAI := false }

/-! ## The recognition polling loop -/

/-- Entry of `captureFrameAndProcess` on a timer tick.  `videoReady` folds
the `videoRef.current`, `canvasRef.current` and
`readyState >= HAVE_METADATA` checks; `ctxOk` is whether
`canvas.getContext("2d")` returned a context.  When a call is started the
in-flight counter grows and the previous error is cleared; when the canvas
context is unavailable the source still toggles the processing flag (net
unchanged) and clears the error but issues no call. -/
def captureTick (s : SessionState) (videoReady ctxOk : Bool) : SessionState :=
  if s.isProcessingAI = true ∨ videoReady = false ∨
      s.activeInputType = ActiveInputType.none then s
  else if ctxOk then
    { s with isProcessingAI := true, error := Option.none,
             inFlight := s.inFlight + 1 }
  else
    { s with error := Option.none }

/-- The success branch of `captureFrameAndProcess` (lines 110-122 of
`App.tsx`): a non-empty recognition result updates the detected text, and
is promoted to the spoken text only when its trim differs from the trim of
the currently spoken text. -/
def processIdentifiedText (s : SessionState) (identifiedText : String) :
    SessionState :=
  if identifiedText ≠ "" ∧ jsTrim identifiedText ≠ "" then
    if jsTrim identifiedText ≠ jsTrim s.currentSpokenText then
      { s with lastDetectedTextByAI := jsTrim identifiedText,
               currentSpokenText := jsTrim identifiedText }
    else
      { s with lastDetectedTextByAI := jsTrim identifiedText }
  else s

/-- The `setIsProcessingAI(false)` at the end of `captureFrameAndProcess`,
together with the settlement of the awaited call. -/
def finishProcessing (s1 : SessionState) : SessionState :=
  { s1 with isProcessingAI := false, inFlight := s1.inFlight - 1 }

/-- The `useEffect` watching `currentSpokenText`: when the settlement
changed the spoken text to a non-empty value, `speakText` runs on it. -/
def speechEffect (pre post : SessionState) : SessionState :=
  if post.currentSpokenText ≠ pre.currentSpokenText ∧
      post.currentSpokenText ≠ "" then
    speakText post post.currentSpokenText
  else post

/-- Settlement of a successful `identifyTextInImage` call: the success
branch runs, the processing flag is cleared, and the `useEffect` watching
`currentSpokenText` speaks the text when it changed to a non-empty value. -/
def settleSuccess (s : SessionState) (txt : String) : SessionState :=
  speechEffect s (finishProcessing (processIdentifiedText s txt))

/-- The displayed message derived from a thrown value in the catch branch of
`captureFrameAndProcess` (`err instanceof Error ? err.message : ...`). -/
def errMessageOf : Throwable → String
  | Throwable.jsError m => m
  | Throwable.nonError => "Failed to identify text from image."

/-- Settlement of a failed `identifyTextInImage` call (lines 123-128 of
`App.tsx`): record the error, clear the detected text, clear the
processing flag.  The polling interval is not touched. -/
def settleError (s : SessionState) (t : Throwable) : SessionState :=
  { s with error := some (errMessageOf t),
           lastDetectedTextByAI := "",
           isProcessingAI := false,
           inFlight := s.inFlight - 1 }

/-- Events of the polling loop: a timer tick, or the settlement of the
outstanding recognition call. -/
inductive PollEvent where
  | tick (videoReady ctxOk : Bool)
  | settleOk (txt : String)
  | settleErr (t : Throwable)

/-- One event step.  Ticks only fire while the interval is installed;
settlements only occur for an outstanding call. -/
def step (s : SessionState) : PollEvent → SessionState
  | PollEvent.tick videoReady ctxOk =>
      if s.intervalRunning then captureTick s videoReady ctxOk else s
  | PollEvent.settleOk txt =>
      if s.inFlight = 0 then s else settleSuccess s txt
  | PollEvent.settleErr t =>
      if s.inFlight = 0 then s else settleError s t

/-- Run a sequence of poll events. -/
def run (s : SessionState) (es : List PollEvent) : SessionState :=
  es.foldl step s

/-! ## Helper lemmas about the operations -/

theorem speakText_inFlight (s : SessionState) (t : String) :
    (speakText s t).inFlight = s.inFlight := by
  unfold speakText; split <;> rfl

theorem speakText_isProcessingAI (s : SessionState) (t : String) :
    (speakText s t).isProcessingAI = s.isProcessingAI := by
  unfold speakText; split <;> rfl

theorem speakText_intervalRunning (s : SessionState) (t : String) :
    (speakText s t).intervalRunning = s.intervalRunning := by
  unfold speakText; split <;> rfl

theorem speakText_lastDetected (s : SessionState) (t : String) :
    (speakText s t).lastDetectedTextByAI = s.lastDetectedTextByAI := by
  unfold speakText; split <;> rfl

theorem speakText_currentSpokenText (s : SessionState) (t : String) :
    (speakText s t).currentSpokenText = s.currentSpokenText := by
  unfold speakText; split <;> rfl

theorem processIdentifiedText_inFlight (s : SessionState) (t : String) :
    (processIdentifiedText s t).inFlight = s.inFlight := by
  simp only [processIdentifiedText]
  split_ifs <;> rfl

theorem processIdentifiedText_isProcessingAI (s : SessionState) (t : String) :
    (processIdentifiedText s t).isProcessingAI = s.isProcessingAI := by
  simp only [processIdentifiedText]
  split_ifs <;> rfl

theorem processIdentifiedText_intervalRunning (s : SessionState) (t : String) :
    (processIdentifiedText s t).intervalRunning = s.intervalRunning := by
  simp only [processIdentifiedText]
  split_ifs <;> rfl

theorem settleSuccess_inFlight (s : SessionState) (t : String) :
    (settleSuccess s t).inFlight = s.inFlight - 1 := by
  unfold settleSuccess speechEffect
  split_ifs <;>
    simp [speakText_inFlight, finishProcessing, processIdentifiedText_inFlight]

theorem settleSuccess_isProcessingAI (s : SessionState) (t : String) :
    (settleSuccess s t).isProcessingAI = false := by
  unfold settleSuccess speechEffect
  split_ifs <;> simp [speakText_isProcessingAI, finishProcessing]

theorem settleSuccess_intervalRunning (s : SessionState) (t : String) :
    (settleSuccess s t).intervalRunning = s.intervalRunning := by
  unfold settleSuccess speechEffect
  split_ifs <;>
    simp [speakText_intervalRunning, finishProcessing,
          processIdentifiedText_intervalRunning]

/-! ## The single-flight invariant of the poller -/

/-- The processing flag tracks the number of outstanding recognition calls:
exactly one while the flag is set, none otherwise. -/
def ProcInv (s : SessionState) : Prop :=
  s.inFlight = if s.isProcessingAI = true then 1 else 0

theorem step_procInv (s : SessionState) (e : PollEvent) (h : ProcInv s) :
    ProcInv (step s e) := by
  cases e with
  | tick videoReady ctxOk =>
    simp only [step]
    by_cases hI : s.intervalRunning
    · rw [if_pos hI]
      unfold captureTick
      split_ifs with hg hc
      · exact h
      · have hp : s.isProcessingAI = false := by
          rcases Bool.eq_false_or_eq_true s.isProcessingAI with hb | hb
          · exact absurd (Or.inl hb) hg
          · exact hb
        unfold ProcInv at h ⊢
        simp only [hp, if_neg (by simp : ¬(false = true))] at h
        simp [h]
      · exact h
    · rw [if_neg hI]; exact h
  | settleOk txt =>
    simp only [step]
    by_cases h0 : s.inFlight = 0
    · rw [if_pos h0]; exact h
    · rw [if_neg h0]
      unfold ProcInv
      rw [settleSuccess_inFlight, settleSuccess_isProcessingAI]
      have hp : s.isProcessingAI = true := by
        rcases Bool.eq_false_or_eq_true s.isProcessingAI with hb | hb
        · exact hb
        · exfalso; unfold ProcInv at h; simp [hb] at h; exact h0 h
      unfold ProcInv at h
      simp only [hp, if_pos rfl] at h
      simp [h]
  | settleErr t =>
    simp only [step]
    by_cases h0 : s.inFlight = 0
    · rw [if_pos h0]; exact h
    · rw [if_neg h0]
      unfold ProcInv settleError
      have hp : s.isProcessingAI = true := by
        rcases Bool.eq_false_or_eq_true s.isProcessingAI with hb | hb
        · exact hb
        · exfalso; unfold ProcInv at h; simp [hb] at h; exact h0 h
      unfold ProcInv at h
      simp only [hp, if_pos rfl] at h
      simp [h]

theorem run_procInv (s : SessionState) (h : ProcInv s) (es : List PollEvent) :
    ProcInv (run s es) := by
  induction es generalizing s with
  | nil => exact h
  | cons e es ih => exact ih (step s e) (step_procInv s e h)

/-- C1: for every sequence of poll timer ticks (and settlements of the
outstanding call), at most one recognition call is in flight at any time,
and a tick that arrives while a call is outstanding leaves the state
unchanged — it does not start a second call, because the `isProcessingAI`
flag guards entry and is cleared only when the call settles. -/
theorem recognition_single_flight (s : SessionState)
    (h0 : s.inFlight = 0) (h1 : s.isProcessingAI = false)
    (es : List PollEvent) :
    (run s es).inFlight ≤ 1 ∧
    (∀ videoReady ctxOk : Bool, (run s es).isProcessingAI = true →
      step (run s es) (PollEvent.tick videoReady ctxOk) = run s es) := by
  have hinv : ProcInv (run s es) := by
    apply run_procInv
    unfold ProcInv
    simp [h0, h1]
  constructor
  · unfold ProcInv at hinv
    rw [hinv]
    split <;> simp
  · intro videoReady ctxOk hp
    have hcap : captureTick (run s es) videoReady ctxOk = run s es := by
      unfold captureTick
      rw [if_pos (Or.inl hp)]
    simp only [step]
    by_cases hI : (run s es).intervalRunning <;> simp [hI, hcap]

/-- Initial component state of `App.tsx` (all `useState` initial values). -/
def initSession : SessionState :=
  { isCameraOn := false
    isScreenSharingOn := false
    activeInputType := ActiveInputType.none
    isProcessingAI := false
    currentSpokenText := ""
    lastDetectedTextByAI := ""
    error := Option.none
    stream := Option.none
    stoppedTracks := []
    videoElem := some Option.none
    intervalRunning := false
    speechQueue := []
    mediaRecorderRef := Option.none
    isRecording := false
    recordedChunks := []
    videoRecordUrl := Option.none
    recordingError := Option.none
    customPromptText := ""
    speechRate := 1
    availableVoices := []
    selectedVoiceURI := Option.none
    inFlight := 0 }

/-- A state with the camera active and the polling interval installed, as
established by a successful `startCamera`. -/
def cameraSession : SessionState :=
  { initSession with
    isCameraOn := true
    activeInputType := ActiveInputType.camera
    stream := some [0, 1]
    videoElem := some (some [0, 1])
    intervalRunning := true }

/-- Witness for C1 on a concrete tick/settle sequence. -/
theorem recognition_single_flight_witness :
    (run cameraSession
      [PollEvent.tick true true, PollEvent.tick true true,
       PollEvent.settleOk " HI ", PollEvent.tick true true,
       PollEvent.settleErr (Throwable.jsError "boom")]).inFlight ≤ 1 :=
  (recognition_single_flight cameraSession rfl rfl _).1

/-! ## Claim C2: recognition results and error classification -/

theorem wrapped_upstream_ne_cred (m : String) :
    ("Gemini API error: " ++ m) ≠ credMissingMsg ∧
    ("Gemini API error: " ++ m) ≠ credInvalidMsg := by
  constructor
  · intro h
    have hpre : "Gemini API error: ".data <+: credMissingMsg.data := by
      rw [← h, String.data_append]
      exact ⟨m.data, rfl⟩
    exact absurd hpre (by decide)
  · intro h
    have hpre : "Gemini API error: ".data <+: credInvalidMsg.data := by
      rw [← h, String.data_append]
      exact ⟨m.data, rfl⟩
    exact absurd hpre (by decide)

/-- C2: for every image input and optional custom prompt,
`identifyTextInImage` either returns the recognized text trimmed (possibly
empty — not an error) or throws a classified error: the credential messages
when the key is missing or the service reports an invalid key, an
upstream-error message wrapping the underlying `Error` message, or the
unknown message for a non-`Error` throwable; every escaping throwable is
classified. -/
theorem identify_text_errors_classified
    (apiKey : Option String) (api : String → Except Throwable String)
    (img : String) (customPrompt : Option String) :
    (∀ t, identifyTextInImage apiKey api img customPrompt = Except.ok t →
        jsTrim t = t) ∧
    (∀ e, identifyTextInImage apiKey api img customPrompt = Except.error e →
        (classifyThrown e).isSome = true) ∧
    (apiKey.getD "" = "" →
        identifyTextInImage apiKey api img customPrompt =
          Except.error (Throwable.jsError credMissingMsg) ∧
        classifyThrown (Throwable.jsError credMissingMsg) =
          some RecognitionErrorClass.invalid_credentials) ∧
    (∀ w, apiKey.getD "" ≠ "" → api (buildPrompt customPrompt) = Except.ok w →
        identifyTextInImage apiKey api img customPrompt =
          Except.ok (jsTrim w)) ∧
    (∀ m, apiKey.getD "" ≠ "" →
        api (buildPrompt customPrompt) = Except.error (Throwable.jsError m) →
        hasSubstring m "API key not valid" = true →
        identifyTextInImage apiKey api img customPrompt =
          Except.error (Throwable.jsError credInvalidMsg) ∧
        classifyThrown (Throwable.jsError credInvalidMsg) =
          some RecognitionErrorClass.invalid_credentials) ∧
    (∀ m, apiKey.getD "" ≠ "" →
        api (buildPrompt customPrompt) = Except.error (Throwable.jsError m) →
        hasSubstring m "API key not valid" = false →
        identifyTextInImage apiKey api img customPrompt =
          Except.error (Throwable.jsError ("Gemini API error: " ++ m)) ∧
        classifyThrown (Throwable.jsError ("Gemini API error: " ++ m)) =
          some RecognitionErrorClass.upstream_error) ∧
    (apiKey.getD "" ≠ "" →
        api (buildPrompt customPrompt) = Except.error Throwable.nonError →
        identifyTextInImage apiKey api img customPrompt =
          Except.error (Throwable.jsError unknownCommMsg) ∧
        classifyThrown (Throwable.jsError unknownCommMsg) =
          some RecognitionErrorClass.unknown) := by
  have hwrapclass : ∀ m,
      classifyThrown (Throwable.jsError ("Gemini API error: " ++ m)) =
        some RecognitionErrorClass.upstream_error := by
    intro m
    simp only [classifyThrown]
    rw [if_neg (by
      rintro (h | h)
      · exact (wrapped_upstream_ne_cred m).1 h
      · exact (wrapped_upstream_ne_cred m).2 h)]
    rw [if_pos (by
      rw [List.isPrefixOf_iff_prefix, String.data_append]
      exact ⟨m.data, rfl⟩)]
  refine ⟨?_, ?_, ?_, ?_, ?_, ?_, ?_⟩
  · intro t ht
    unfold identifyTextInImage at ht
    by_cases hk : apiKey.getD "" = ""
    · rw [if_pos hk] at ht
      exact Except.noConfusion ht
    · rw [if_neg hk] at ht
      cases hapi : api (buildPrompt customPrompt) with
      | ok w =>
        rw [hapi] at ht
        simp only [geminiResult, Except.ok.injEq] at ht
        rw [← ht, jsTrim_idem]
      | error e =>
        rw [hapi] at ht
        cases e with
        | jsError m =>
          simp only [geminiResult] at ht
          split_ifs at ht
        | nonError =>
          simp only [geminiResult] at ht
          exact Except.noConfusion ht
  · intro e he
    unfold identifyTextInImage at he
    by_cases hk : apiKey.getD "" = ""
    · rw [if_pos hk] at he
      simp only [Except.error.injEq] at he
      subst he
      decide
    · rw [if_neg hk] at he
      cases hapi : api (buildPrompt customPrompt) with
      | ok w =>
        rw [hapi] at he
        simp only [geminiResult] at he
        exact Except.noConfusion he
      | error e' =>
        rw [hapi] at he
        cases e' with
        | jsError m =>
          simp only [geminiResult] at he
          split_ifs at he with hsub
          · simp only [Except.error.injEq] at he
            subst he
            decide
          · simp only [Except.error.injEq] at he
            subst he
            rw [hwrapclass m]
            rfl
        | nonError =>
          simp only [geminiResult, Except.error.injEq] at he
          subst he
          decide
  · intro hk
    refine ⟨?_, by decide⟩
    unfold identifyTextInImage
    rw [if_pos hk]
  · intro w hk hapi
    unfold identifyTextInImage
    rw [if_neg hk, hapi]
    rfl
  · intro m hk hapi hsub
    refine ⟨?_, by decide⟩
    unfold identifyTextInImage
    rw [if_neg hk, hapi]
    simp only [geminiResult]
    rw [if_pos hsub]
  · intro m hk hapi hsub
    refine ⟨?_, hwrapclass m⟩
    unfold identifyTextInImage
    rw [if_neg hk, hapi]
    simp only [geminiResult]
    rw [if_neg (by simp [hsub])]
  · intro hk hapi
    refine ⟨?_, by decide⟩
    unfold identifyTextInImage
    rw [if_neg hk, hapi]
    rfl

/-- A concrete network outcome: the service throws a transport error. -/
def exUpstreamApi : String → Except Throwable String :=
  fun _ => Except.error (Throwable.jsError "connection reset")

/-- Witness for C2: a transport failure is rethrown wrapped as a classified
upstream error. -/
theorem identify_text_errors_classified_witness :
    identifyTextInImage (some "k") exUpstreamApi "img" Option.none =
      Except.error (Throwable.jsError ("Gemini API error: " ++ "connection reset")) ∧
    classifyThrown (Throwable.jsError ("Gemini API error: " ++ "connection reset")) =
      some RecognitionErrorClass.upstream_error :=
  (identify_text_errors_classified (some "k") exUpstreamApi "img"
    Option.none).2.2.2.2.2.1 "connection reset" (by decide) rfl (by decide)

/-! ## Claims C3 and C4: the stop contract -/

/-- A session with the camera running, a spoken text, an outstanding
recording, and a displayed error. -/
def busySession : SessionState :=
  { cameraSession with
    currentSpokenText := "HELLO"
    lastDetectedTextByAI := "HELLO"
    error := some "Gemini API error: boom"
    mediaRecorderRef := some MediaRecorderState.recording
    isRecording := true
    speechQueue := [{ text := "HELLO", rate := 1, voice := Option.none }] }

/-- Counterexample for C3 as stated: `stopAllStreamsAndProcessing` never
touches the `error` state, so after stopping from a state with a displayed
error the error is still displayed, not cleared. -/
theorem stop_error_not_cleared_counterexample :
    (stopAllStreamsAndProcessing busySession).error = some "Gemini API error: boom" :=
  rfl

/-- C3 (amended): after `stopAllStreamsAndProcessing`, every track of the
prior stream is released, the video sink is detached, the stream handle and
the input type are cleared, the polling interval is cleared, pending speech
is canceled, any active recording is stopped, and the recognition state
(spoken text, detected text, in-flight flag) is cleared; the error state,
however, is preserved unchanged, not cleared. -/
theorem stop_postconditions_amended (s : SessionState) :
    (∀ id, id ∈ s.stream.getD [] →
        id ∈ (stopAllStreamsAndProcessing s).stoppedTracks) ∧
    (stopAllStreamsAndProcessing s).stream = Option.none ∧
    (∀ v, (stopAllStreamsAndProcessing s).videoElem = some v →
        v = Option.none) ∧
    (stopAllStreamsAndProcessing s).activeInputType = ActiveInputType.none ∧
    (stopAllStreamsAndProcessing s).intervalRunning = false ∧
    (stopAllStreamsAndProcessing s).speechQueue = [] ∧
    (stopAllStreamsAndProcessing s).isRecording = false ∧
    (stopAllStreamsAndProcessing s).mediaRecorderRef ≠
      some MediaRecorderState.recording ∧
    (stopAllStreamsAndProcessing s).currentSpokenText = "" ∧
    (stopAllStreamsAndProcessing s).lastDetectedTextByAI = "" ∧
    (stopAllStreamsAndProcessing s).isProcessingAI = false ∧
    (stopAllStreamsAndProcessing s).error = s.error := by
  refine ⟨?_, rfl, ?_, rfl, rfl, rfl, rfl, ?_, rfl, rfl, rfl, rfl⟩
  · intro id hid
    show id ∈ s.stoppedTracks ++ s.stream.getD []
    exact List.mem_append_right _ hid
  · intro v hv
    show v = Option.none
    rcases hve : s.videoElem with _ | x
    · exfalso
      have : (stopAllStreamsAndProcessing s).videoElem = Option.none := by
        show s.videoElem.map _ = Option.none
        rw [hve]
        rfl
      rw [this] at hv
      exact Option.noConfusion hv
    · have : (stopAllStreamsAndProcessing s).videoElem = some Option.none := by
        show s.videoElem.map _ = some Option.none
        rw [hve]
        rfl
      rw [this] at hv
      exact (Option.some.injEq _ _ ▸ hv).symm
  · show stoppedRecorderRef s.mediaRecorderRef ≠ some MediaRecorderState.recording
    rcases s.mediaRecorderRef with _ | r
    · intro h
      exact Option.noConfusion h
    · cases r <;> intro h <;> exact MediaRecorderState.noConfusion (Option.some.injEq _ _ ▸ h)

/-- Witness for C3 (amended): a concrete busy session; track 0 of its
stream is released by the stop. -/
theorem stop_postconditions_amended_witness :
    (0 : Nat) ∈ (stopAllStreamsAndProcessing busySession).stoppedTracks :=
  (stop_postconditions_amended busySession).1 0 (by decide)

theorem map_const_none_idem (v : Option (Option (List Nat))) :
    Option.map (fun _ => (Option.none : Option (List Nat)))
        (Option.map (fun _ => (Option.none : Option (List Nat))) v) =
      Option.map (fun _ => (Option.none : Option (List Nat))) v := by
  cases v <;> rfl

theorem stoppedRecorderRef_idem (r : Option MediaRecorderState) :
    stoppedRecorderRef (stoppedRecorderRef r) = stoppedRecorderRef r := by
  rcases r with _ | r
  · rfl
  · cases r <;> rfl

/-- C4: `stopAllStreamsAndProcessing` is idempotent — running it twice from
any session state produces exactly the state produced by running it once. -/
theorem stop_idempotent (s : SessionState) :
    stopAllStreamsAndProcessing (stopAllStreamsAndProcessing s) =
      stopAllStreamsAndProcessing s := by
  apply SessionState.ext <;>
    first
      | rfl
      | exact map_const_none_idem s.videoElem
      | simp [stopAllStreamsAndProcessing, handleStopRecordingInternal,
              stoppedRecorderRef_idem]

/-! ## Claim C5: success path of a poll cycle -/

/-- C5: on a poll cycle settling with non-empty recognized text, the
detected text is updated to the trimmed text; the text is promoted to the
spoken text (enqueuing exactly one utterance with it) precisely when it
differs from the currently spoken text, and when it equals the currently
spoken text the spoken text and the speech queue are untouched.  The
hypothesis that the currently spoken text is trimmed holds in every
reachable state, since the spoken text is only ever set to `""` or to a
trimmed value. -/
theorem poll_success_updates (s : SessionState) (txt : String)
    (hne : jsTrim txt ≠ "")
    (hsp : jsTrim s.currentSpokenText = s.currentSpokenText) :
    (settleSuccess s txt).lastDetectedTextByAI = jsTrim txt ∧
    (jsTrim txt ≠ s.currentSpokenText →
      (settleSuccess s txt).currentSpokenText = jsTrim txt ∧
      (settleSuccess s txt).speechQueue =
        [{ text := jsTrim txt, rate := s.speechRate,
           voice := lookupSelectedVoice s }]) ∧
    (jsTrim txt = s.currentSpokenText →
      (settleSuccess s txt).currentSpokenText = s.currentSpokenText ∧
      (settleSuccess s txt).speechQueue = s.speechQueue) := by
  have htxt : txt ≠ "" := by
    intro h
    rw [h] at hne
    exact hne rfl
  by_cases hd : jsTrim txt = s.currentSpokenText
  · have hproc : processIdentifiedText s txt =
        { s with lastDetectedTextByAI := jsTrim txt } := by
      unfold processIdentifiedText
      rw [if_pos ⟨htxt, hne⟩]
      rw [if_neg (fun hcon => hcon (by rw [hsp]; exact hd))]
    have hres : settleSuccess s txt =
        { s with lastDetectedTextByAI := jsTrim txt,
                 isProcessingAI := false, inFlight := s.inFlight - 1 } := by
      unfold settleSuccess speechEffect finishProcessing
      rw [hproc]
      rw [if_neg (fun hcon => hcon.1 rfl)]
    refine ⟨by rw [hres], fun hcon => absurd hd hcon,
            fun _ => ⟨by rw [hres], by rw [hres]⟩⟩
  · have hproc : processIdentifiedText s txt =
        { s with lastDetectedTextByAI := jsTrim txt,
                 currentSpokenText := jsTrim txt } := by
      unfold processIdentifiedText
      rw [if_pos ⟨htxt, hne⟩]
      rw [if_pos (show jsTrim txt ≠ jsTrim s.currentSpokenText by
        rw [hsp]; exact hd)]
    have hres : settleSuccess s txt =
        speakText
          { s with lastDetectedTextByAI := jsTrim txt,
                   currentSpokenText := jsTrim txt,
                   isProcessingAI := false, inFlight := s.inFlight - 1 }
          (jsTrim txt) := by
      unfold settleSuccess speechEffect finishProcessing
      rw [hproc]
      rw [if_pos ⟨hd, hne⟩]
    have hspeak : settleSuccess s txt =
        { s with lastDetectedTextByAI := jsTrim txt,
                 currentSpokenText := jsTrim txt,
                 isProcessingAI := false, inFlight := s.inFlight - 1,
                 speechQueue :=
                   [{ text := jsTrim txt, rate := s.speechRate,
                      voice := lookupSelectedVoice s }] } := by
      rw [hres]
      unfold speakText
      rw [if_neg (by rw [jsTrim_idem]; exact hne)]
      rfl
    exact ⟨by rw [hspeak], fun _ => ⟨by rw [hspeak], by rw [hspeak]⟩,
           fun heq => absurd heq hd⟩

/-- Witness for C5: recognizing `" HELLO WORLD "` while `""` is spoken
promotes `"HELLO WORLD"` to the spoken text and enqueues it. -/
theorem poll_success_updates_witness :
    (settleSuccess cameraSession " HELLO WORLD ").currentSpokenText =
        jsTrim " HELLO WORLD " ∧
    (settleSuccess cameraSession " HELLO WORLD ").speechQueue =
      [{ text := jsTrim " HELLO WORLD ", rate := cameraSession.speechRate,
         voice := lookupSelectedVoice cameraSession }] :=
  (poll_success_updates cameraSession " HELLO WORLD " (by decide) (by decide)).2.1
    (by decide)

/-! ## Claim C6: error path of a poll cycle -/

/-- C6: when the recognition call settles with a throwable (including the
invalid-credential error), the error message is recorded for display, the
detected text is cleared, the polling interval keeps running, and the very
next tick starts a new recognition call. -/
theorem poll_error_keeps_polling (s : SessionState) (t : Throwable)
    (hin : s.inFlight = 1) (hiv : s.intervalRunning = true)
    (hac : s.activeInputType ≠ ActiveInputType.none) :
    (step s (PollEvent.settleErr t)).error = some (errMessageOf t) ∧
    (step s (PollEvent.settleErr t)).lastDetectedTextByAI = "" ∧
    (step s (PollEvent.settleErr t)).intervalRunning = true ∧
    (step (step s (PollEvent.settleErr t))
        (PollEvent.tick true true)).isProcessingAI = true ∧
    (step (step s (PollEvent.settleErr t))
        (PollEvent.tick true true)).inFlight = 1 := by
  have h1 : step s (PollEvent.settleErr t) = settleError s t := by
    simp only [step]
    rw [if_neg (by rw [hin]; exact Nat.one_ne_zero)]
  have h2 : step (settleError s t) (PollEvent.tick true true) =
      { settleError s t with
        isProcessingAI := true, error := Option.none,
        inFlight := (settleError s t).inFlight + 1 } := by
    simp only [step]
    rw [if_pos (show (settleError s t).intervalRunning = true from hiv)]
    unfold captureTick
    rw [if_neg (by
      rintro (hcon | hcon | hcon)
      · exact Bool.noConfusion hcon
      · exact Bool.noConfusion hcon
      · exact hac hcon)]
    rw [if_pos rfl]
  rw [h1]
  refine ⟨rfl, rfl, hiv, ?_, ?_⟩
  · rw [h2]
  · rw [h2]
    show s.inFlight - 1 + 1 = 1
    rw [hin]

/-- A session in the middle of a recognition call. -/
def pollingBusySession : SessionState :=
  { cameraSession with isProcessingAI := true, inFlight := 1 }

/-- Witness for C6: an invalid-credential failure is displayed and the next
tick polls again. -/
theorem poll_error_keeps_polling_witness :
    (step pollingBusySession
        (PollEvent.settleErr (Throwable.jsError credInvalidMsg))).error =
      some credInvalidMsg ∧
    (step (step pollingBusySession
          (PollEvent.settleErr (Throwable.jsError credInvalidMsg)))
        (PollEvent.tick true true)).isProcessingAI = true := by
  have h := poll_error_keeps_polling pollingBusySession
    (Throwable.jsError credInvalidMsg) rfl rfl (by decide)
  exact ⟨h.1, h.2.2.2.1⟩

/-! ## Claims C7 and C10: the speech announcer -/

theorem speakText_queue_le (s : SessionState) (t : String)
    (h : s.speechQueue.length ≤ 1) :
    (speakText s t).speechQueue.length ≤ 1 := by
  unfold speakText
  split_ifs
  · exact h
  · simp

theorem speakText_queue_of_ne (s : SessionState) (t : String)
    (h : jsTrim t ≠ "") :
    (speakText s t).speechQueue =
      [{ text := t, rate := s.speechRate, voice := lookupSelectedVoice s }] := by
  unfold speakText
  rw [if_neg h]

/-- C7: the announcer never lets two utterances be audible at once: from
any state with at most one queued utterance, any sequence of `speakText`
calls leaves at most one utterance queued, and after two successive calls
(the second with non-blank text) every queued utterance carries the second
call's text — the first call's utterance was canceled before the new one
was spoken. -/
theorem speak_text_preempts (s : SessionState) (ts : List String)
    (h : s.speechQueue.length ≤ 1) :
    ((ts.foldl speakText s).speechQueue.length ≤ 1) ∧
    (∀ t1 t2 : String, jsTrim t2 ≠ "" →
      ∀ u, u ∈ (speakText (speakText s t1) t2).speechQueue → u.text = t2) := by
  constructor
  · induction ts generalizing s with
    | nil => exact h
    | cons t ts ih => exact ih (speakText s t) (speakText_queue_le s t h)
  · intro t1 t2 ht2 u hu
    rw [speakText_queue_of_ne (speakText s t1) t2 ht2] at hu
    rw [List.mem_singleton.mp hu]

/-- Witness for C7 on a concrete call sequence. -/
theorem speak_text_preempts_witness :
    ((["HI", "THERE"].foldl speakText cameraSession).speechQueue.length ≤ 1) :=
  (speak_text_preempts cameraSession ["HI", "THERE"] (by decide)).1

/-- C10: calling `speakText` with whitespace-only text is a complete no-op:
the state — including an utterance already playing — is untouched. -/
theorem speak_text_blank_noop (s : SessionState) (t : String)
    (h : jsTrim t = "") : speakText s t = s := by
  unfold speakText
  rw [if_pos h]

/-- Witness for C10: a blank call while an utterance is queued changes
nothing. -/
theorem speak_text_blank_noop_witness :
    speakText busySession "   " = busySession :=
  speak_text_blank_noop busySession "   " (by decide)

/-! ## Claim C8: recorder start without an active stream -/

/-- Error message of `handleStartRecording` when no stream is active. -/
def noActiveStreamMsg : String :=
  "No active stream to record. Start camera or screen share first."

/-- Error message when no candidate MIME type is supported. -/
def noSupportedMimeMsg : String :=
  "No supported MIME type found for recording (e.g., video/webm)."

/-- Error message when constructing or starting the recorder throws. -/
def recorderStartFailedMsg : String :=
  "Failed to start recording. MediaRecorder might not be supported or stream is invalid."

/-- The preference-ordered MIME type candidates of `handleStartRecording`. -/
def mimeTypeCandidates : List String :=
  ["video/webm;codecs=vp9,opus", "video/webm;codecs=vp8,opus",
   "video/webm", "video/mp4"]

/-- `handleStartRecording` of `App.tsx`.  `isTypeSupported` models
`MediaRecorder.isTypeSupported`; `ctorOk` models whether constructing and
starting the `MediaRecorder` succeeds. -/
def handleStartRecording (isTypeSupported : String → Bool) (ctorOk : Bool)
    (s : SessionState) : SessionState :=
  if s.stream = Option.none ∨ s.activeInputType = ActiveInputType.none then
    { s with recordingError := some noActiveStreamMsg }
  else if s.isRecording then s
  else
    match mimeTypeCandidates.find? isTypeSupported with
    | Option.none =>
        { s with recordingError := some noSupportedMimeMsg,
                 videoRecordUrl := Option.none, recordedChunks := [] }
    | some _ =>
        if ctorOk then
          { s with recordingError := Option.none,
                   videoRecordUrl := Option.none, recordedChunks := [],
                   mediaRecorderRef := some MediaRecorderState.recording,
                   isRecording := true }
        else
          { s with recordingError := some recorderStartFailedMsg,
                   videoRecordUrl := Option.none, recordedChunks := [],
                   isRecording := false }

/-- C8: `handleStartRecording` with no active stream (no stream handle or
input type `none`) only records the no-active-stream error; the recorder
state stays Idle — no `MediaRecorder` is created, `isRecording` stays
false, and no chunks are accumulated. -/
theorem start_recording_no_stream (isTypeSupported : String → Bool)
    (ctorOk : Bool) (s : SessionState)
    (h : s.stream = Option.none ∨ s.activeInputType = ActiveInputType.none)
    (hrec : s.isRecording = false) :
    handleStartRecording isTypeSupported ctorOk s =
      { s with recordingError := some noActiveStreamMsg } ∧
    (handleStartRecording isTypeSupported ctorOk s).isRecording = false ∧
    (handleStartRecording isTypeSupported ctorOk s).mediaRecorderRef =
      s.mediaRecorderRef ∧
    (handleStartRecording isTypeSupported ctorOk s).recordedChunks =
      s.recordedChunks := by
  have hmain : handleStartRecording isTypeSupported ctorOk s =
      { s with recordingError := some noActiveStreamMsg } := by
    unfold handleStartRecording
    rw [if_pos h]
  refine ⟨hmain, ?_, ?_, ?_⟩
  · rw [hmain]
    exact hrec
  · rw [hmain]
  · rw [hmain]

/-- Witness for C8 at the initial (Idle, no stream) state. -/
theorem start_recording_no_stream_witness :
    handleStartRecording (fun _ => true) true initSession =
      { initSession with recordingError := some noActiveStreamMsg } :=
  (start_recording_no_stream (fun _ => true) true initSession
    (Or.inl rfl) rfl).1

/-! ## Claim C9: the HTML-to-JSON utility (`scripts/htmlToJson.ts`) -/

/-- A `domhandler` DOM node as consumed by `nodeToJson`: element-like nodes
(type `tag`, `script` or `style`) with a name, attributes and children;
text nodes with data; any other node kind carrying only its type string. -/
inductive DomNode where
  | element (ty : String) (nm : String) (attribs : List (String × String))
      (children : List DomNode)
  | text (data : String)
  | other (ty : String)

/-- A JSON value as produced by the utility. -/
inductive JsonV where
  | str (s : String)
  | arr (elems : List JsonV)
  | obj (fields : List (String × JsonV))

/-- `nodeToJson` of the script: an element-like node becomes
`{type, name, attribs, children}` with the children mapped recursively; a
text node becomes `{type: "text", data}`; any other node becomes
`{type}`. -/
def nodeToJson : DomNode → JsonV
  | DomNode.element ty nm attribs children =>
      JsonV.obj
        [("type", JsonV.str ty), ("name", JsonV.str nm),
         ("attribs", JsonV.obj (attribs.map fun p => (p.1, JsonV.str p.2))),
         ("children", JsonV.arr (children.attach.map fun c => nodeToJson c.1))]
  | DomNode.text d => JsonV.obj [("type", JsonV.str "text"), ("data", JsonV.str d)]
  | DomNode.other ty => JsonV.obj [("type", JsonV.str ty)]
decreasing_by
  simp_wf
  have h := List.sizeOf_lt_of_mem c.2
  omega

/-- Model of Node's callback-style `fs.readFile` (from `import * as fs
from "fs"`) invoked as `fs.readFile(path, "utf8")` with no callback, as the
script does: Node throws `TypeError [ERR_INVALID_ARG_TYPE]` synchronously,
so the read never yields the file contents. -/
def fsReadFileNoCallback (path : String) : Except String String :=
  Except.error
    "TypeError ERR_INVALID_ARG_TYPE: the cb argument must be of type function"

/-- `main` of the script: read HTML from the file named by the first
argument when present, else from standard input; parse it (`parseDocument`,
modelled by the `parse` parameter since `htmlparser2` is an external,
non-throwing parser) and print the JSON array of the root's children.  Any
throw is caught by `main().catch`, which logs and exits with code 1.
Returns the exit code and the emitted JSON, if any. -/
def htmlToJsonMain (arg : Option String) (stdinData : String)
    (parse : String → List DomNode) : Nat × Option JsonV :=
  match (match arg with
         | some p => fsReadFileNoCallback p
         | none => Except.ok stdinData) with
  | Except.error _ => (1, Option.none)
  | Except.ok h => (0, some (JsonV.arr ((parse h).map nodeToJson)))

/-- C9 (code bug): invoking the utility with a file path argument — the
documented first mode of use — always exits with code 1 and emits no JSON,
because `fs.readFile` from the callback-style `fs` module is awaited
without a callback and throws.  Standard-input mode behaves as the claim
describes. -/
theorem html_to_json_file_arg_exits_one (path stdinData : String)
    (parse : String → List DomNode) :
    htmlToJsonMain (some path) stdinData parse = (1, Option.none) ∧
    htmlToJsonMain Option.none stdinData parse =
      (0, some (JsonV.arr ((parse stdinData).map nodeToJson))) :=
  ⟨rfl, rfl⟩
